import Mathlib

/-!
Shallow embedding of the clinic-management backend
(src/server/src/handlers plus src/server/src/db/schema.ts).

The database is modelled as lists of rows; every handler becomes a pure
function from a database value (and the ambient clock / generated id) to an
`Except` result, mirroring the throw/return behaviour of the TypeScript
source.  External collaborators (sha256, base64url/JSON codecs, Bun password
hashing) are taken as function parameters, since their outputs are opaque
byte strings to the handlers under verification.
-/

set_option autoImplicit false

namespace Clinic

/-- Error outcomes observable from a handler call.  `handler` is an error
thrown explicitly by handler code (a pre-check), `dbUnique` is a database
unique-constraint violation raised at insert/update time, `dbFk` is a
database foreign-key violation raised at delete time. -/
inductive Err where
  | handler : String → Err
  | dbUnique : String → Err
  | dbFk : String → Err
deriving DecidableEq, Repr

/-- Row of the users table (schema.ts, usersTable). -/
structure UserRow where
  id : Int
  username : String
  password_hash : String
  full_name : String
  role : String
  is_active : Bool
  created_at : Int
  updated_at : Int
deriving DecidableEq, Repr

/-- Row of the patients table (schema.ts, patientsTable). -/
structure PatientRow where
  id : Int
  medical_record_number : String
  full_name : String
  phone_number : String
  address : String
  date_of_birth : Int
  created_at : Int
  updated_at : Int
deriving DecidableEq, Repr

/-- Row of the doctors table (schema.ts, doctorsTable). -/
structure DoctorRow where
  id : Int
  user_id : Int
  specialization : String
  practice_schedule : String
  created_at : Int
  updated_at : Int
deriving DecidableEq, Repr

/-- Row of the medical_records table (schema.ts, medicalRecordsTable). -/
structure MedicalRecordRow where
  id : Int
  patient_id : Int
  doctor_id : Int
  visit_date : Int
  diagnosis : String
  prescription : String
  notes : Option String
  created_at : Int
  updated_at : Int
deriving DecidableEq, Repr

/-- Row of the payments table (schema.ts, paymentsTable).  The three
numeric(10,2) money columns hold exact decimal values; they are modelled as
rationals, and every value stored through `createPayment` passes through
the column's scale-2 rounding (`numericScale2`), matching what the database
keeps after an insert. -/
structure PaymentRow where
  id : Int
  patient_id : Int
  medical_record_id : Option Int
  cashier_id : Int
  doctor_service_fee : ℚ
  medicine_fee : ℚ
  total_amount : ℚ
  payment_date : Int
  receipt_number : String
  created_at : Int
  updated_at : Int
deriving DecidableEq, Repr

/-- The whole database: one list of rows per table. -/
structure DB where
  users : List UserRow
  patients : List PatientRow
  doctors : List DoctorRow
  medicalRecords : List MedicalRecordRow
  payments : List PaymentRow
deriving DecidableEq, Repr

/-! ## Session token codec (handlers/auth.ts) -/

/-- The claims object embedded in a token (auth.ts, TokenPayload).  `exp` is
an absolute expiry in seconds; `0` models a falsy/absent `exp`. -/
structure TokenPayload where
  id : Int
  username : String
  role : String
  exp : Int
deriving DecidableEq, Repr

/-- Split a character list at every occurrence of the separator, keeping
empty pieces, as JavaScript `String.prototype.split` does with a
single-character separator. -/
def splitChars (sep : Char) : List Char → List (List Char)
  | [] => [[]]
  | x :: xs =>
    if x == sep then [] :: splitChars sep xs
    else
      match splitChars sep xs with
      | [] => [[x]]
      | piece :: rest => (x :: piece) :: rest

/-- JavaScript `s.split(sep)` for a one-character separator: `""` yields
`[""]`, separators at the ends yield empty segments. -/
def jsSplit (sep : Char) (s : String) : List String :=
  (splitChars sep s.data).map String.mk

/-- auth.ts `createSimpleJWT`: header and payload arrive already encoded
(`encHeader`, `encPayload` stand for the base64url-encoded JSON documents),
`sig` stands for `createHash('sha256').update(_).digest('base64url')`. -/
def createSimpleJWT (sig : String → String) (secret : String)
    (encHeader encPayload : String) : String :=
  encHeader ++ "." ++ encPayload ++ "." ++
    sig (encHeader ++ "." ++ encPayload ++ "." ++ secret)

/-- auth.ts `verifySimpleJWT`.  `token.split('.')` with array destructuring
binds the first three segments (further segments are dropped); a missing or
empty segment is falsy and rejected.  `decodePayload` stands for
`JSON.parse(Buffer.from(_, 'base64url').toString())`, returning `none` when
that throws.  The expiry test `payload.exp && now > payload.exp` skips the
check when `exp` is falsy. -/
def verifySimpleJWT (sig : String → String)
    (decodePayload : String → Option TokenPayload) (secret : String)
    (nowSec : Int) (token : String) : Option TokenPayload :=
  let parts := jsSplit '.' token
  match parts[0]?, parts[1]?, parts[2]? with
  | some encHeader, some encPayload, some signature =>
    if encHeader.isEmpty || encPayload.isEmpty || signature.isEmpty then
      none
    else if signature ≠ sig (encHeader ++ "." ++ encPayload ++ "." ++ secret) then
      none
    else
      match decodePayload encPayload with
      | none => none
      | some payload =>
        if payload.exp ≠ 0 ∧ nowSec > payload.exp then none else some payload
  | _, _, _ => none

/-! ## Password hashing (handlers/auth.ts) -/

/-- auth.ts `hashPassword` with an explicit salt: `sha` stands for
`createHash('sha256').update(_).digest('hex')`; the result is the stored
digest `hash ++ ":" ++ salt`. -/
def hashPassword (sha : String → String) (password salt : String) : String :=
  sha (password ++ salt) ++ ":" ++ salt

/-- auth.ts `verifyPassword`.  The stored digest is split on `:`; the second
component is the salt (`salt || randomBytes(16).toString('hex')` falls back
to a fresh random salt, modelled by `freshSalt`, when the component is
missing or empty).  The recomputed full digest is compared with the stored
one. -/
def verifyPassword (sha : String → String) (freshSalt : String)
    (password hashedPassword : String) : Bool :=
  let parts := jsSplit ':' hashedPassword
  let saltUsed :=
    match parts[1]? with
    | some s => if s.isEmpty then freshSalt else s
    | none => freshSalt
  hashPassword sha password saltUsed == hashedPassword

/-- auth.ts `createPasswordHash` with a fresh random salt. -/
def createPasswordHash (sha : String → String) (freshSalt : String)
    (password : String) : String :=
  hashPassword sha password freshSalt

/-! ## Auth handlers (handlers/auth.ts) -/

/-- Result of a successful `validateToken` call. -/
structure ValidatedUser where
  id : Int
  username : String
  role : String
deriving DecidableEq, Repr

/-- auth.ts `LoginInput`. -/
structure LoginInput where
  username : String
  password : String
deriving DecidableEq, Repr

/-- auth.ts `loginUser`: look the user up by username (limit 1), reject a
missing user, reject an inactive account, reject a failed password check,
otherwise return the user row together with a freshly signed token.
`encPayload` stands for the base64url JSON encoding of the token payload. -/
def loginUser (sha : String → String) (freshSalt : String)
    (sig : String → String) (secret : String) (encHeader : String)
    (encPayload : TokenPayload → String) (nowSec : Int) (db : DB)
    (input : LoginInput) : Except Err (UserRow × String) :=
  match db.users.find? (fun u => u.username == input.username) with
  | none => .error (.handler "Invalid username or password")
  | some user =>
    if !user.is_active then .error (.handler "Account is inactive")
    else if !verifyPassword sha freshSalt input.password user.password_hash then
      .error (.handler "Invalid username or password")
    else
      .ok (user, createSimpleJWT sig secret encHeader
        (encPayload ⟨user.id, user.username, user.role, nowSec + 24 * 3600⟩))

/-- auth.ts `validateToken`: verify/decode the token, then re-fetch the user
by the payload id (limit 1) and reject a missing or inactive account; on
success return id, username and role from the fetched row. -/
def validateToken (sig : String → String)
    (decodePayload : String → Option TokenPayload) (secret : String)
    (nowSec : Int) (db : DB) (token : String) : Except Err ValidatedUser :=
  match verifySimpleJWT sig decodePayload secret nowSec token with
  | none => .error (.handler "Invalid or expired token")
  | some payload =>
    match db.users.find? (fun u => u.id == payload.id) with
    | none => .error (.handler "User not found or inactive")
    | some user =>
      if !user.is_active then .error (.handler "User not found or inactive")
      else .ok ⟨user.id, user.username, user.role⟩

/-! ## Users handlers (handlers/users.ts) -/

/-- schema.ts `CreateUserInput`. -/
structure CreateUserInput where
  username : String
  password : String
  full_name : String
  role : String
  is_active : Bool
deriving DecidableEq, Repr

/-- schema.ts `UpdateUserInput`: every field but the id is optional. -/
structure UpdateUserInput where
  id : Int
  username : Option String
  password : Option String
  full_name : Option String
  role : Option String
  is_active : Option Bool
deriving DecidableEq, Repr

/-- users.ts `createUser`: hash the password with `Bun.password.hash`
(modelled by `bunHash`) and insert the row.  There is no pre-check on the
username; the `users.username` unique constraint (schema.ts) rejects a
duplicate at insert time. -/
def createUser (bunHash : String → String) (now newId : Int) (db : DB)
    (input : CreateUserInput) : Except Err (UserRow × DB) :=
  if db.users.any (fun u => u.username == input.username) then
    .error (.dbUnique "users_username_unique")
  else
    let row : UserRow :=
      ⟨newId, input.username, bunHash input.password, input.full_name,
        input.role, input.is_active, now, now⟩
    .ok (row, { db with users := db.users ++ [row] })

/-- users.ts `getUserById`. -/
def getUserById (db : DB) (id : Int) : Option UserRow :=
  db.users.find? (fun u => u.id == id)

/-- users.ts `updateUser`: apply exactly the fields present in the input,
set `updated_at` to the current time, and throw when no row matched. -/
def updateUser (bunHash : String → String) (now : Int) (db : DB)
    (input : UpdateUserInput) : Except Err (UserRow × DB) :=
  match db.users.find? (fun u => u.id == input.id) with
  | none => .error (.handler "User not found")
  | some u0 =>
    if db.users.any (fun u =>
        u.id != input.id && input.username == some u.username) then
      .error (.dbUnique "users_username_unique")
    else
      let u1 : UserRow :=
        { u0 with
          username := input.username.getD u0.username
          password_hash := (input.password.map bunHash).getD u0.password_hash
          full_name := input.full_name.getD u0.full_name
          role := input.role.getD u0.role
          is_active := input.is_active.getD u0.is_active
          updated_at := now }
      .ok (u1, { db with
        users := db.users.map (fun u => if u.id == input.id then u1 else u) })

/-- users.ts `deleteUser`: delete with `.returning()`; zero returned rows
throws `User not found`, otherwise success is `true`.  A user still
referenced from doctors.user_id or payments.cashier_id trips the database
foreign-key constraint instead. -/
def deleteUser (db : DB) (id : Int) : Except Err (Bool × DB) :=
  if db.users.any (fun u => u.id == id) then
    if db.doctors.any (fun d => d.user_id == id) ||
        db.payments.any (fun p => p.cashier_id == id) then
      .error (.dbFk "users_referenced")
    else
      .ok (true, { db with users := db.users.filter (fun u => u.id != id) })
  else
    .error (.handler "User not found")

/-! ## Patients handlers (handlers/patients.ts) -/

/-- schema.ts `CreatePatientInput`. -/
structure CreatePatientInput where
  medical_record_number : String
  full_name : String
  phone_number : String
  address : String
  date_of_birth : Int
deriving DecidableEq, Repr

/-- schema.ts `UpdatePatientInput`: every field but the id is optional. -/
structure UpdatePatientInput where
  id : Int
  medical_record_number : Option String
  full_name : Option String
  phone_number : Option String
  address : Option String
  date_of_birth : Option Int
deriving DecidableEq, Repr

/-- patients.ts `createPatient`: a bare insert.  There is no pre-check on
the record number; the `patients.medical_record_number` unique constraint
(schema.ts) rejects a duplicate at insert time. -/
def createPatient (now newId : Int) (db : DB) (input : CreatePatientInput) :
    Except Err (PatientRow × DB) :=
  if db.patients.any
      (fun p => p.medical_record_number == input.medical_record_number) then
    .error (.dbUnique "patients_medical_record_number_unique")
  else
    let row : PatientRow :=
      ⟨newId, input.medical_record_number, input.full_name,
        input.phone_number, input.address, input.date_of_birth, now, now⟩
    .ok (row, { db with patients := db.patients ++ [row] })

/-- patients.ts `getPatientById`. -/
def getPatientById (db : DB) (id : Int) : Option PatientRow :=
  db.patients.find? (fun p => p.id == id)

/-- patients.ts `updatePatient`: apply exactly the fields present in the
input, set `updated_at` to the current time, and throw when no row
matched. -/
def updatePatient (now : Int) (db : DB) (input : UpdatePatientInput) :
    Except Err (PatientRow × DB) :=
  match db.patients.find? (fun p => p.id == input.id) with
  | none =>
    .error (.handler ("Patient with ID " ++ toString input.id ++ " not found"))
  | some p0 =>
    if db.patients.any (fun p =>
        p.id != input.id &&
          input.medical_record_number == some p.medical_record_number) then
      .error (.dbUnique "patients_medical_record_number_unique")
    else
      let p1 : PatientRow :=
        { p0 with
          medical_record_number :=
            input.medical_record_number.getD p0.medical_record_number
          full_name := input.full_name.getD p0.full_name
          phone_number := input.phone_number.getD p0.phone_number
          address := input.address.getD p0.address
          date_of_birth := input.date_of_birth.getD p0.date_of_birth
          updated_at := now }
      .ok (p1, { db with
        patients :=
          db.patients.map (fun p => if p.id == input.id then p1 else p) })

/-- patients.ts `deletePatient`: delete with `.returning()` and report
`success := ` whether any row was deleted; a missing id is not an error.  A
patient still referenced from medical_records or payments trips the
database foreign-key constraint instead. -/
def deletePatient (db : DB) (id : Int) : Except Err (Bool × DB) :=
  if db.patients.any (fun p => p.id == id) then
    if db.medicalRecords.any (fun r => r.patient_id == id) ||
        db.payments.any (fun p => p.patient_id == id) then
      .error (.dbFk "patients_referenced")
    else
      .ok (true,
        { db with patients := db.patients.filter (fun p => p.id != id) })
  else
    .ok (false, db)

/-! ## Medical records handlers (handlers/medical_records.ts) -/

/-- schema.ts `UpdateMedicalRecordInput`: diagnosis and prescription are
optional strings, notes is an optional nullable string (outer `Option` is
presence in the input, inner `Option` is the nullable value). -/
structure UpdateMedicalRecordInput where
  id : Int
  diagnosis : Option String
  prescription : Option String
  notes : Option (Option String)
deriving DecidableEq, Repr

/-- medical_records.ts `getMedicalRecordById` (limit 1). -/
def getMedicalRecordById (db : DB) (id : Int) : Option MedicalRecordRow :=
  db.medicalRecords.find? (fun r => r.id == id)

/-- medical_records.ts `updateMedicalRecord`: fetch the record (throwing
when absent), collect exactly the fields present in the input, return the
unchanged record when no field is present, otherwise update those fields.
The handler never touches `updated_at` and the schema has no on-update
trigger, so the stored timestamp is left as it was. -/
def updateMedicalRecord (db : DB) (input : UpdateMedicalRecordInput) :
    Except Err (MedicalRecordRow × DB) :=
  match getMedicalRecordById db input.id with
  | none =>
    .error (.handler
      ("Medical record with ID " ++ toString input.id ++ " not found"))
  | some r0 =>
    if input.diagnosis.isNone && input.prescription.isNone &&
        input.notes.isNone then
      .ok (r0, db)
    else
      let r1 : MedicalRecordRow :=
        { r0 with
          diagnosis := input.diagnosis.getD r0.diagnosis
          prescription := input.prescription.getD r0.prescription
          notes := input.notes.getD r0.notes }
      .ok (r1, { db with
        medicalRecords :=
          db.medicalRecords.map (fun r => if r.id == input.id then r1 else r) })

/-- medical_records.ts `deleteMedicalRecord`: throw when the record is
absent, throw when any payment references it (limit-1 lookup on
`payments.medical_record_id`), otherwise delete it and report success. -/
def deleteMedicalRecord (db : DB) (id : Int) : Except Err (Bool × DB) :=
  match getMedicalRecordById db id with
  | none =>
    .error (.handler ("Medical record with ID " ++ toString id ++ " not found"))
  | some _ =>
    if db.payments.any (fun p => p.medical_record_id == some id) then
      .error (.handler
        ("Cannot delete medical record with ID " ++ toString id ++
          " because it has related payments"))
    else
      .ok (true, { db with
        medicalRecords := db.medicalRecords.filter (fun r => r.id != id) })

/-! ## Payments handlers (handlers/payments.ts) -/

/-- Round a rational to the nearest integer with halves away from zero,
the rounding PostgreSQL applies when a value is stored into a numeric
column with a smaller scale. -/
def roundHalfAway (q : ℚ) : ℤ :=
  if q < 0 then -round (-q) else round q

/-- The value a numeric(10,2) column stores for an assigned amount: the
amount rounded to two decimal places, halves away from zero.  The
precision-10 bound (amounts of absolute value 10^8 or more overflow with a
database error) lies outside every amount in this development and is not
embedded. -/
def numericScale2 (q : ℚ) : ℚ :=
  ((roundHalfAway (q * 100) : ℤ) : ℚ) / 100

/-- schema.ts `CreatePaymentInput`: fees are non-negative numbers and the
medical record reference is optional/nullable. -/
structure CreatePaymentInput where
  patient_id : Int
  medical_record_id : Option Int
  cashier_id : Int
  doctor_service_fee : ℚ
  medicine_fee : ℚ
  receipt_number : String
deriving DecidableEq, Repr

/-- payments.ts `createPayment`: compute the total as the sum of the two
fees, pre-check that the patient exists, that the cashier exists and is
active, and (when `input.medical_record_id` is truthy — id `0` is falsy in
JavaScript and skips both the check and the stored reference) that the
medical record exists; then insert.  The `payments.receipt_number` unique
constraint (schema.ts) rejects a duplicate receipt at insert time; there is
no pre-check for it.  The three money values pass through `toString` and
land in numeric(10,2) columns, so the stored row carries them rounded to
scale 2 (`numericScale2`).  The JavaScript double addition before
`toString` is embedded as exact rational addition: for amounts within the
columns' range its representation error stays far below the half-cent
rounding step, which absorbs it. -/
def createPayment (now newId : Int) (db : DB) (input : CreatePaymentInput) :
    Except Err (PaymentRow × DB) :=
  let total_amount := input.doctor_service_fee + input.medicine_fee
  let storedMrid : Option Int :=
    match input.medical_record_id with
    | some m => if m == 0 then none else some m
    | none => none
  if !db.patients.any (fun p => p.id == input.patient_id) then
    .error (.handler "Patient not found")
  else
    match db.users.find? (fun u => u.id == input.cashier_id) with
    | none => .error (.handler "Cashier not found or inactive")
    | some cashier =>
      if !cashier.is_active then .error (.handler "Cashier not found or inactive")
      else if (match storedMrid with
          | some m => !db.medicalRecords.any (fun r => r.id == m)
          | none => false) then
        .error (.handler "Medical record not found")
      else if db.payments.any
          (fun p => p.receipt_number == input.receipt_number) then
        .error (.dbUnique "payments_receipt_number_unique")
      else
        let row : PaymentRow :=
          ⟨newId, input.patient_id, storedMrid, input.cashier_id,
            numericScale2 input.doctor_service_fee,
            numericScale2 input.medicine_fee,
            numericScale2 total_amount,
            now, input.receipt_number, now, now⟩
        .ok (row, { db with payments := db.payments ++ [row] })

/-- payments.ts `getPaymentById`. -/
def getPaymentById (db : DB) (id : Int) : Option PaymentRow :=
  db.payments.find? (fun p => p.id == id)

/-! ## Dashboard handlers (handlers/dashboard.ts) -/

/-- One row of the `getTodaysSchedule` result as mapped at the end of the
handler. -/
structure ScheduleRow where
  id : Int
  patient_id : Int
  patient_name : String
  patient_phone : String
  doctor_id : Int
  doctor_name : String
  visit_date : Int
  diagnosis : String
  prescription : String
deriving DecidableEq, Repr

/-- Insert a schedule row into a list that is sorted by ascending
`visit_date`, keeping it sorted. -/
def insertByVisit (r : ScheduleRow) : List ScheduleRow → List ScheduleRow
  | [] => [r]
  | x :: xs =>
    if r.visit_date ≤ x.visit_date then r :: x :: xs
    else x :: insertByVisit r xs

/-- Insertion sort by ascending `visit_date`, modelling
`orderBy(medicalRecordsTable.visit_date)`. -/
def sortByVisit : List ScheduleRow → List ScheduleRow
  | [] => []
  | x :: xs => insertByVisit x (sortByVisit xs)

/-- The row built for one medical record by the select of
`getTodaysSchedule`, realising the three inner joins: the record joins its
patient, its doctor profile and that profile's user account; a record
missing any of the three is dropped. -/
def scheduleRowOf (db : DB) (r : MedicalRecordRow) : Option ScheduleRow :=
  match db.patients.find? (fun p => p.id == r.patient_id) with
  | none => none
  | some p =>
    match db.doctors.find? (fun d => d.id == r.doctor_id) with
    | none => none
    | some d =>
      match db.users.find? (fun u => u.id == d.user_id) with
      | none => none
      | some u =>
        some ⟨r.id, r.patient_id, p.full_name, p.phone_number, r.doctor_id,
          u.full_name, r.visit_date, r.diagnosis, r.prescription⟩

/-- dashboard.ts `getTodaysSchedule`.  `today` is the local midnight
computed by `setHours(0,0,0,0)` and `tomorrow` the midnight one calendar day
later; the visit-date window is `gte(visit_date, today)` together with
`lte(visit_date, tomorrow)` — both bounds inclusive.  When a `doctorId`
(account id) is supplied, the doctor profile owned by that account is looked
up first (limit 1) and, only if one exists, `doctor_id` is constrained to
it; otherwise the condition is silently not added. -/
def getTodaysSchedule (db : DB) (today tomorrow : Int)
    (doctorId : Option Int) : List ScheduleRow :=
  let docCond : Option Int :=
    match doctorId with
    | none => none
    | some uid =>
      match (db.doctors.filter (fun d => d.user_id == uid)).head? with
      | some d => some d.id
      | none => none
  let rows := db.medicalRecords.filterMap (fun r =>
    if today ≤ r.visit_date && r.visit_date ≤ tomorrow &&
        (match docCond with
         | some did => r.doctor_id == did
         | none => true) then
      scheduleRowOf db r
    else
      none)
  sortByVisit rows

/-! ## Concrete fixtures used by witnesses and counterexamples -/

/-- A deterministic stand-in for the sha256/base64url signature: it maps the
signing input of the example token to the signature segment `c`. -/
def exSig : String → String := fun s => if s == "a.b.secret" then "c" else "x"

/-- A stand-in payload decoder mapping the example encoded payload `b` to a
fixed claims object with a falsy expiry. -/
def exDecode : String → Option TokenPayload := fun s =>
  if s == "b" then some ⟨1, "u", "admin", 0⟩ else none

/-- The empty database. -/
def dbEmpty : DB := ⟨[], [], [], [], []⟩

/-- A clinician account (id 5) backing the doctor profile below. -/
def exDoctorUser : UserRow := ⟨5, "drjones", "ph", "Dr Jones", "doctor", true, 0, 0⟩

/-- A doctor profile (id 1) owned by account 5. -/
def exDoctor : DoctorRow := ⟨1, 5, "gp", "sched", 0, 0⟩

/-- A patient (id 2). -/
def exPatient : PatientRow := ⟨2, "MRN001", "John Doe", "555", "addr", 0, 0, 0⟩

/-- A database with one visit record dated inside the day window
(`visit_date = 10`). -/
def dbSchedule : DB :=
  ⟨[exDoctorUser], [exPatient], [exDoctor],
    [⟨3, 2, 1, 10, "flu", "rest", none, 0, 0⟩], []⟩

/-- A database with one visit record dated exactly at the next midnight
(`visit_date = 86400000` with `today = 0`). -/
def dbScheduleBoundary : DB :=
  ⟨[exDoctorUser], [exPatient], [exDoctor],
    [⟨3, 2, 1, 86400000, "flu", "rest", none, 0, 0⟩], []⟩

/-- A database with one user (id 1, active) for token validation. -/
def dbOneUser : DB :=
  ⟨[⟨1, "u", "ph", "U", "admin", true, 0, 0⟩], [], [], [], []⟩

/-- A database holding only one medical record whose stored
`updated_at` is `5`. -/
def dbOneRecord : DB :=
  ⟨[], [], [], [⟨3, 2, 1, 10, "flu", "rest", none, 0, 5⟩], []⟩

/-- A database holding only one patient row, used for update framing. -/
def dbOnePatient : DB :=
  ⟨[], [⟨2, "MRN001", "John", "555", "addr", 7, 1, 1⟩], [], [], []⟩

/-- A database with an existing username, record number and receipt
number, for duplicate-create experiments. -/
def dbUniques : DB :=
  ⟨[⟨1, "alice", "ph", "Alice", "admin", true, 0, 0⟩],
    [⟨2, "MRN001", "John Doe", "555", "addr", 0, 0, 0⟩], [],
    [⟨3, 2, 1, 10, "flu", "rest", none, 0, 0⟩],
    [⟨4, 2, some 3, 1, 10, 5, 15, 0, "RCP-1", 0, 0⟩]⟩

/-- A database where medical record 3 is referenced by payment 7. -/
def dbRecordWithPayment : DB :=
  ⟨[], [], [], [⟨3, 2, 1, 10, "flu", "rest", none, 0, 5⟩],
    [⟨7, 2, some 3, 1, 10, 5, 15, 0, "RCP-7", 0, 0⟩]⟩

/-- A database with a patient (id 1) and an active cashier (id 2), ready
for `createPayment`. -/
def dbPaymentReady : DB :=
  ⟨[⟨2, "cash", "ph", "Cash Ier", "receptionist", true, 0, 0⟩],
    [⟨1, "MRN002", "Jane", "556", "addr", 0, 0, 0⟩], [], [], []⟩

/-- The single patient row of `dbOnePatient` before an update. -/
def patBefore : PatientRow := ⟨2, "MRN001", "John", "555", "addr", 7, 1, 1⟩

/-- `patBefore` after `updatePatient` at time 100 with only `full_name`
present: the one supplied field and `updated_at` change. -/
def patAfter : PatientRow := ⟨2, "MRN001", "Jane", "555", "addr", 7, 1, 100⟩

/-- The single medical record of `dbOneRecord` before an update. -/
def recBefore : MedicalRecordRow := ⟨3, 2, 1, 10, "flu", "rest", none, 0, 5⟩

/-- `recBefore` after `updateMedicalRecord` with only `diagnosis` present:
the diagnosis changes and `updated_at` keeps its stored value `5`. -/
def recAfter : MedicalRecordRow := ⟨3, 2, 1, 10, "cold", "rest", none, 0, 5⟩

/-- The payment row produced by `createPayment` on `dbPaymentReady` at time
100 with generated id 5 and fees 150 and 75.5: each money column stores its
value rounded at scale 2. -/
def payAfter : PaymentRow :=
  ⟨5, 1, none, 2, numericScale2 150, numericScale2 75.5,
    numericScale2 (150 + 75.5), 100, "RCP-9", 100, 100⟩

/-- `dbPaymentReady` after inserting `payAfter`. -/
def dbAfterPayment : DB :=
  ⟨dbPaymentReady.users, dbPaymentReady.patients, [], [], [payAfter]⟩

/-- A stand-in for `Bun.password.hash`: a constant argon2-style digest,
which (like every argon2/bcrypt digest) contains no colon. -/
def exBunHash : String → String := fun _ => "$argon2id$v=19$m=65536"

/-- The database after `createUser` of account `alice` on the empty
database with `exBunHash`. -/
def dbCreatedUser : DB :=
  ⟨[⟨1, "alice", "$argon2id$v=19$m=65536", "Alice", "admin", true, 1, 1⟩],
    [], [], [], []⟩

/-! ## Claim C1: structural validation of tokens -/

/-- C1 counterexample.  The claim states that verification rejects every
token that does not split into exactly three non-empty segments, and in
particular rejects a validly signed token with an extra `.x` segment
appended.  In the code `token.split('.')` is destructured into its first
three segments and any further segments are dropped, so the validly signed
token `a.b.c` and the four-segment token `a.b.c.x` are both accepted. -/
theorem verifySimpleJWT_accepts_extra_segment :
    verifySimpleJWT exSig exDecode "secret" 100 "a.b.c" =
      some ⟨1, "u", "admin", 0⟩ ∧
    verifySimpleJWT exSig exDecode "secret" 100 "a.b.c.x" =
      some ⟨1, "u", "admin", 0⟩ := by
  constructor <;> decide

/-- C1 (amended): verification fails whenever any of the first three
dot-separated segments of the token is missing or empty — in particular for
every token with fewer than three segments; segments beyond the third are
ignored rather than rejected. -/
theorem verifySimpleJWT_rejects_missing_or_empty_segment
    (sig : String → String) (dec : String → Option TokenPayload)
    (secret : String) (nowSec : Int) (token : String)
    (h : (jsSplit '.' token)[0]?.getD "" = "" ∨
      (jsSplit '.' token)[1]?.getD "" = "" ∨
      (jsSplit '.' token)[2]?.getD "" = "") :
    verifySimpleJWT sig dec secret nowSec token = none := by
  unfold verifySimpleJWT
  dsimp only
  split
  next encHeader encPayload signature h0 h1 h2 =>
    rw [if_pos]
    rw [h0, h1, h2] at h
    simp only [Option.getD_some] at h
    rcases h with h | h | h <;>
      simp [h, String.isEmpty_iff]
  next => rfl

/-- C1 witness: the two-segment token `a.b` is rejected. -/
theorem verifySimpleJWT_rejects_witness :
    (jsSplit '.' "a.b")[2]?.getD "" = "" ∧
    verifySimpleJWT exSig exDecode "secret" 100 "a.b" = none :=
  ⟨by decide,
    verifySimpleJWT_rejects_missing_or_empty_segment exSig exDecode "secret"
      100 "a.b" (Or.inr (Or.inr (by decide)))⟩

/-! ## Claim C2: schedule with an unknown clinician account -/

/-- C2 counterexample.  The claim states that `getTodaysSchedule` called
with an account id owning no doctor profile returns the empty list.  In the
code the profile lookup coming up empty merely skips adding the doctor
condition, so the call returns the full unfiltered schedule: in
`dbSchedule` account id 99 owns no profile, yet the call returns the one
visit record of the day. -/
theorem getTodaysSchedule_unknown_account_not_empty :
    getTodaysSchedule dbSchedule 0 86400000 (some 99) =
      [⟨3, 2, "John Doe", "555", 1, "Dr Jones", 10, "flu", "rest"⟩] := by
  decide

/-- C2 (amended): when the given account id owns no doctor profile, no
error is raised and the doctor filter is silently dropped, so the result
equals the unfiltered schedule of the day (empty only when the day itself
has no records). -/
theorem getTodaysSchedule_unknown_account_unfiltered (db : DB)
    (today tomorrow : Int) (uid : Int)
    (h : ∀ d ∈ db.doctors, d.user_id ≠ uid) :
    getTodaysSchedule db today tomorrow (some uid) =
      getTodaysSchedule db today tomorrow none := by
  have hfil : db.doctors.filter (fun d => d.user_id == uid) = [] := by
    rw [List.filter_eq_nil_iff]
    intro d hd
    simpa using h d hd
  unfold getTodaysSchedule
  dsimp only
  rw [hfil]
  rfl

/-- C2 witness: on `dbSchedule`, account id 99 owns no profile and the
filtered call coincides with the unfiltered one. -/
theorem getTodaysSchedule_unknown_account_witness :
    (∀ d ∈ dbSchedule.doctors, d.user_id ≠ (99 : Int)) ∧
    getTodaysSchedule dbSchedule 0 86400000 (some 99) =
      getTodaysSchedule dbSchedule 0 86400000 none :=
  ⟨by decide,
    getTodaysSchedule_unknown_account_unfiltered dbSchedule 0 86400000 99
      (by decide)⟩

/-! ## Claim C3: token validation re-checks the account -/

/-- C3: for every token that passes structural, signature and expiry
verification, `validateToken` re-fetches the account named by the payload
id and fails when it is missing or inactive; it returns the fetched
account's id, username and role exactly when the account exists and is
active. -/
theorem validateToken_rechecks_account (sig : String → String)
    (dec : String → Option TokenPayload) (secret : String) (nowSec : Int)
    (db : DB) (token : String) (payload : TokenPayload)
    (h : verifySimpleJWT sig dec secret nowSec token = some payload) :
    (db.users.find? (fun u => u.id == payload.id) = none →
      validateToken sig dec secret nowSec db token =
        .error (.handler "User not found or inactive")) ∧
    (∀ u, db.users.find? (fun v => v.id == payload.id) = some u →
      (u.is_active = false →
        validateToken sig dec secret nowSec db token =
          .error (.handler "User not found or inactive")) ∧
      (u.is_active = true →
        validateToken sig dec secret nowSec db token =
          .ok ⟨u.id, u.username, u.role⟩)) := by
  unfold validateToken
  rw [h]
  dsimp only
  constructor
  · intro h2
    rw [h2]
  · intro u h2
    rw [h2]
    exact ⟨fun h3 => by simp [h3], fun h3 => by simp [h3]⟩

/-- C3 witness: a freshly verified token for the active account 1 in
`dbOneUser` validates to that account's claims. -/
theorem validateToken_rechecks_account_witness :
    verifySimpleJWT exSig exDecode "secret" 100 "a.b.c" =
      some ⟨1, "u", "admin", 0⟩ ∧
    dbOneUser.users.find?
        (fun v => v.id == (TokenPayload.mk 1 "u" "admin" 0).id) =
      some ⟨1, "u", "ph", "U", "admin", true, 0, 0⟩ ∧
    validateToken exSig exDecode "secret" 100 dbOneUser "a.b.c" =
      .ok ⟨1, "u", "admin"⟩ :=
  ⟨by decide, by decide,
    ((validateToken_rechecks_account exSig exDecode "secret" 100 dbOneUser
        "a.b.c" ⟨1, "u", "admin", 0⟩ (by decide)).2
      ⟨1, "u", "ph", "U", "admin", true, 0, 0⟩ (by decide)).2 (by decide)⟩

/-! ## Claim C4: update framing and the modification timestamp -/

/-- C4 counterexample.  The claim states that every entity update always
strictly advances `updated_at`, including medical-record updates.  The
medical-record handler never writes `updated_at` (and the schema has no
on-update trigger): updating record 3 of `dbOneRecord` (stored
`updated_at = 5`) with a new diagnosis leaves `updated_at` at `5`. -/
theorem updateMedicalRecord_does_not_refresh_updated_at :
    getMedicalRecordById dbOneRecord 3 = some recBefore ∧
    recBefore.updated_at = 5 ∧
    updateMedicalRecord dbOneRecord ⟨3, some "cold", none, none⟩ =
      .ok (recAfter, ⟨[], [], [], [recAfter], []⟩) ∧
    recAfter.updated_at = 5 :=
  ⟨rfl, rfl, rfl, rfl⟩

/-- C4 (amended): a successful update with only a subset of the optional
fields keeps every absent field at its pre-update value; `updatePatient`
sets `updated_at` to the update time, while `updateMedicalRecord` leaves
`updated_at` exactly as stored. -/
theorem update_frame_behavior :
    (∀ (now : Int) (db : DB) (input : UpdatePatientInput)
        (p0 p : PatientRow) (db2 : DB),
      db.patients.find? (fun q => q.id == input.id) = some p0 →
      updatePatient now db input = .ok (p, db2) →
      p.id = p0.id ∧ p.created_at = p0.created_at ∧
      (input.medical_record_number = none →
        p.medical_record_number = p0.medical_record_number) ∧
      (input.full_name = none → p.full_name = p0.full_name) ∧
      (input.phone_number = none → p.phone_number = p0.phone_number) ∧
      (input.address = none → p.address = p0.address) ∧
      (input.date_of_birth = none → p.date_of_birth = p0.date_of_birth) ∧
      p.updated_at = now) ∧
    (∀ (db : DB) (input : UpdateMedicalRecordInput)
        (r0 r : MedicalRecordRow) (db2 : DB),
      db.medicalRecords.find? (fun q => q.id == input.id) = some r0 →
      updateMedicalRecord db input = .ok (r, db2) →
      r.id = r0.id ∧ r.patient_id = r0.patient_id ∧
      r.doctor_id = r0.doctor_id ∧ r.visit_date = r0.visit_date ∧
      r.created_at = r0.created_at ∧
      (input.diagnosis = none → r.diagnosis = r0.diagnosis) ∧
      (input.prescription = none → r.prescription = r0.prescription) ∧
      (input.notes = none → r.notes = r0.notes) ∧
      r.updated_at = r0.updated_at) := by
  constructor
  · intro now db input p0 p db2 h0 hok
    unfold updatePatient at hok
    rw [h0] at hok
    dsimp only at hok
    split at hok
    · exact absurd hok (by simp)
    · simp only [Except.ok.injEq, Prod.mk.injEq] at hok
      obtain ⟨hp, -⟩ := hok
      subst hp
      refine ⟨rfl, rfl, ?_, ?_, ?_, ?_, ?_, rfl⟩ <;>
        intro hx <;> simp [hx]
  · intro db input r0 r db2 h0 hok
    unfold updateMedicalRecord getMedicalRecordById at hok
    rw [h0] at hok
    dsimp only at hok
    split at hok
    · simp only [Except.ok.injEq, Prod.mk.injEq] at hok
      obtain ⟨hr, -⟩ := hok
      subst hr
      exact ⟨rfl, rfl, rfl, rfl, rfl, fun _ => rfl, fun _ => rfl,
        fun _ => rfl, rfl⟩
    · simp only [Except.ok.injEq, Prod.mk.injEq] at hok
      obtain ⟨hr, -⟩ := hok
      subst hr
      refine ⟨rfl, rfl, rfl, rfl, rfl, ?_, ?_, ?_, rfl⟩ <;>
        intro hx <;> simp [hx]

/-- C4 witness: on `dbOnePatient`, updating only the patient's name keeps
record number, phone, address and birth date and sets `updated_at` to 100;
on `dbOneRecord`, updating only the diagnosis keeps the prescription and
keeps `updated_at` at its stored value. -/
theorem update_frame_behavior_witness :
    patAfter.medical_record_number = patBefore.medical_record_number ∧
    patAfter.phone_number = patBefore.phone_number ∧
    patAfter.address = patBefore.address ∧
    patAfter.date_of_birth = patBefore.date_of_birth ∧
    patAfter.updated_at = 100 ∧
    recAfter.prescription = recBefore.prescription ∧
    recAfter.updated_at = recBefore.updated_at := by
  obtain ⟨-, -, h3, -, h5, h6, h7, h8⟩ :=
    update_frame_behavior.1 100 dbOnePatient ⟨2, none, some "Jane", none, none, none⟩
      patBefore patAfter ⟨[], [patAfter], [], [], []⟩ (by decide) (by rfl)
  obtain ⟨-, -, -, -, -, -, g7, -, g9⟩ :=
    update_frame_behavior.2 dbOneRecord ⟨3, some "cold", none, none⟩
      recBefore recAfter ⟨[], [], [], [recAfter], []⟩ (by decide) (by rfl)
  exact ⟨h3 rfl, h5 rfl, h6 rfl, h7 rfl, h8, g7 rfl, g9⟩

/-! ## Claim C5: where uniqueness violations surface -/

/-- C5 counterexample.  The claim states that every create with a unique
field runs a uniqueness pre-check query so that duplicates fail at the
pre-check rather than only at insertion.  None of `createUser`,
`createPatient`, `createPayment` contains such a pre-check: on `dbUniques`
each duplicate create fails with the database unique-constraint violation
raised at insert time, not with a handler pre-check error. -/
theorem create_duplicate_fails_at_db_constraint :
    createPatient 9 9 dbUniques ⟨"MRN001", "Jane", "1", "a", 0⟩ =
      .error (.dbUnique "patients_medical_record_number_unique") ∧
    createUser (fun p => p) 9 9 dbUniques ⟨"alice", "pw1234", "A", "admin", true⟩ =
      .error (.dbUnique "users_username_unique") ∧
    createPayment 9 9 dbUniques ⟨2, none, 1, 1, 1, "RCP-1"⟩ =
      .error (.dbUnique "payments_receipt_number_unique") :=
  ⟨rfl, rfl, rfl⟩

/-- C5 (amended): the create handlers run no uniqueness pre-check; a
duplicate username, record number or receipt number is rejected only at
insertion time by the corresponding database unique constraint (for
`createPayment`, after its foreign-key existence pre-checks pass). -/
theorem create_unique_violation_surfaces_at_insert :
    (∀ (bunHash : String → String) (now newId : Int) (db : DB)
        (input : CreateUserInput),
      db.users.any (fun u => u.username == input.username) = true →
      createUser bunHash now newId db input =
        .error (.dbUnique "users_username_unique")) ∧
    (∀ (now newId : Int) (db : DB) (input : CreatePatientInput),
      db.patients.any (fun p =>
        p.medical_record_number == input.medical_record_number) = true →
      createPatient now newId db input =
        .error (.dbUnique "patients_medical_record_number_unique")) ∧
    (∀ (now newId : Int) (db : DB) (input : CreatePaymentInput) (c : UserRow),
      db.patients.any (fun p => p.id == input.patient_id) = true →
      db.users.find? (fun u => u.id == input.cashier_id) = some c →
      c.is_active = true →
      input.medical_record_id = none →
      db.payments.any
        (fun p => p.receipt_number == input.receipt_number) = true →
      createPayment now newId db input =
        .error (.dbUnique "payments_receipt_number_unique")) := by
  refine ⟨?_, ?_, ?_⟩
  · intro bunHash now newId db input h
    unfold createUser
    simp [h]
  · intro now newId db input h
    unfold createPatient
    simp [h]
  · intro now newId db input c h1 h2 h3 h4 h5
    unfold createPayment
    simp [h1, h2, h3, h4, h5]

/-- C5 witness: the three amended branches applied on `dbUniques`. -/
theorem create_unique_violation_witness :
    createUser (fun p => p) 9 9 dbUniques ⟨"alice", "pw5678", "B", "admin", true⟩ =
      .error (.dbUnique "users_username_unique") ∧
    createPatient 9 9 dbUniques ⟨"MRN001", "Jim", "2", "b", 0⟩ =
      .error (.dbUnique "patients_medical_record_number_unique") ∧
    createPayment 9 9 dbUniques ⟨2, none, 1, 2, 3, "RCP-1"⟩ =
      .error (.dbUnique "payments_receipt_number_unique") :=
  ⟨create_unique_violation_surfaces_at_insert.1 (fun p => p) 9 9 dbUniques
      ⟨"alice", "pw5678", "B", "admin", true⟩ (by decide),
    create_unique_violation_surfaces_at_insert.2.1 9 9 dbUniques
      ⟨"MRN001", "Jim", "2", "b", 0⟩ (by decide),
    create_unique_violation_surfaces_at_insert.2.2 9 9 dbUniques
      ⟨2, none, 1, 2, 3, "RCP-1"⟩ ⟨1, "alice", "ph", "Alice", "admin", true, 0, 0⟩
      (by decide) (by decide) (by decide) (by decide) (by decide)⟩

/-! ## Claim C6: delete outcomes for users and patients -/

/-- C6 counterexample.  The claim states that `deleteUser` on a missing id
returns `success = false` without throwing.  The handler throws
`User not found` when the delete returns no rows. -/
theorem deleteUser_missing_id_throws :
    deleteUser dbEmpty 1 = .error (.handler "User not found") :=
  rfl

/-- C6 (amended): `deletePatient` never throws for a missing id — it
returns `success = false` — and returns `success = true` for an existing,
unreferenced patient; `deleteUser`, by contrast, throws `User not found`
for a missing id and returns `success = true` for an existing,
unreferenced user. -/
theorem delete_outcomes :
    (∀ (db : DB) (id : Int),
      db.users.any (fun u => u.id == id) = false →
      deleteUser db id = .error (.handler "User not found")) ∧
    (∀ (db : DB) (id : Int),
      db.users.any (fun u => u.id == id) = true →
      db.doctors.any (fun d => d.user_id == id) = false →
      db.payments.any (fun p => p.cashier_id == id) = false →
      deleteUser db id =
        .ok (true, { db with users := db.users.filter (fun u => u.id != id) })) ∧
    (∀ (db : DB) (id : Int),
      db.patients.any (fun p => p.id == id) = false →
      deletePatient db id = .ok (false, db)) ∧
    (∀ (db : DB) (id : Int),
      db.patients.any (fun p => p.id == id) = true →
      db.medicalRecords.any (fun r => r.patient_id == id) = false →
      db.payments.any (fun p => p.patient_id == id) = false →
      deletePatient db id =
        .ok (true,
          { db with patients := db.patients.filter (fun p => p.id != id) })) := by
  refine ⟨?_, ?_, ?_, ?_⟩
  · intro db id h
    unfold deleteUser
    simp [h]
  · intro db id h1 h2 h3
    unfold deleteUser
    simp [h1, h2, h3]
  · intro db id h
    unfold deletePatient
    simp [h]
  · intro db id h1 h2 h3
    unfold deletePatient
    simp [h1, h2, h3]

/-- C6 witness: a missing id makes `deleteUser` throw and `deletePatient`
report `success = false`; an existing unreferenced user deletes with
`success = true`. -/
theorem delete_outcomes_witness :
    deleteUser dbEmpty 7 = .error (.handler "User not found") ∧
    deletePatient dbEmpty 7 = .ok (false, dbEmpty) ∧
    deleteUser dbOneUser 1 =
      .ok (true,
        { dbOneUser with
          users := dbOneUser.users.filter (fun u => u.id != (1 : Int)) }) :=
  ⟨delete_outcomes.1 dbEmpty 7 (by decide),
    delete_outcomes.2.2.1 dbEmpty 7 (by decide),
    delete_outcomes.2.1 dbOneUser 1 (by decide) (by decide) (by decide)⟩

/-! ## Claim C7: the day window of the schedule -/

/-- Membership in an insertion step is membership in the inserted element
or the original list. -/
theorem mem_insertByVisit (a r : ScheduleRow) (l : List ScheduleRow) :
    a ∈ insertByVisit r l ↔ a = r ∨ a ∈ l := by
  induction l with
  | nil => simp [insertByVisit]
  | cons x xs ih =>
    unfold insertByVisit
    split
    · simp [List.mem_cons]
    · simp only [List.mem_cons, ih]
      tauto

/-- Sorting by visit date does not change membership. -/
theorem mem_sortByVisit (a : ScheduleRow) (l : List ScheduleRow) :
    a ∈ sortByVisit l ↔ a ∈ l := by
  induction l with
  | nil => simp [sortByVisit]
  | cons x xs ih => simp [sortByVisit, mem_insertByVisit, ih]

/-- C7 counterexample.  The claim states that the window is the half-open
interval from local midnight to the next midnight, so a record dated
exactly at the next midnight is not returned.  The query uses
`lte(visit_date, tomorrow)`, an inclusive upper bound: with `today = 0` and
the next midnight at `86400000`, the record of `dbScheduleBoundary` dated
exactly `86400000` is returned. -/
theorem getTodaysSchedule_includes_next_midnight :
    getTodaysSchedule dbScheduleBoundary 0 86400000 none =
      [⟨3, 2, "John Doe", "555", 1, "Dr Jones", 86400000, "flu", "rest"⟩] := by
  decide

/-- C7 (amended): without a doctor filter, the schedule contains exactly
the join-complete visit records whose visit timestamp lies in the closed
interval from local midnight to the next midnight, both bounds included:
records strictly before midnight or strictly after the next midnight are
excluded, and a record dated exactly at the next midnight is included. -/
theorem getTodaysSchedule_mem_iff (db : DB) (today tomorrow : Int)
    (x : ScheduleRow) :
    x ∈ getTodaysSchedule db today tomorrow none ↔
      ∃ r ∈ db.medicalRecords, today ≤ r.visit_date ∧
        r.visit_date ≤ tomorrow ∧ scheduleRowOf db r = some x := by
  unfold getTodaysSchedule
  dsimp only
  rw [mem_sortByVisit, List.mem_filterMap]
  constructor
  · rintro ⟨r, hr, hf⟩
    split at hf
    · next hcond =>
      simp only [Bool.and_true, Bool.and_eq_true, decide_eq_true_eq] at hcond
      exact ⟨r, hr, hcond.1, hcond.2, hf⟩
    · exact absurd hf (by simp)
  · rintro ⟨r, hr, h1, h2, hf⟩
    refine ⟨r, hr, ?_⟩
    rw [if_pos (by simp [h1, h2])]
    exact hf

/-! ## Claim C8: the payment total against the stored fees -/

/-- A rational that is an integer number of hundredths is stored unchanged
by a scale-2 numeric column. -/
theorem numericScale2_intCast_div (m : ℤ) :
    numericScale2 ((m : ℚ) / 100) = (m : ℚ) / 100 := by
  unfold numericScale2 roundHalfAway
  have h100 : ((m : ℚ) / 100) * 100 = (m : ℚ) := by field_simp
  rw [h100]
  have hsel : (if (m : ℚ) < 0 then -round (-(m : ℚ)) else round ((m : ℚ))) = m := by
    split
    · rw [← Int.cast_neg, round_intCast, neg_neg]
    · rw [round_intCast]
  rw [hsel]

/-- The sum of two scale-2 representable amounts is itself scale-2
representable, so the column stores it exactly. -/
theorem numericScale2_add_fixed (a b : ℚ) (ha : numericScale2 a = a)
    (hb : numericScale2 b = b) : numericScale2 (a + b) = a + b := by
  obtain ⟨m, hm⟩ : ∃ m : ℤ, a = (m : ℚ) / 100 := ⟨_, ha.symm⟩
  obtain ⟨n, hn⟩ : ∃ n : ℤ, b = (n : ℚ) / 100 := ⟨_, hb.symm⟩
  have hsum : a + b = ((m + n : ℤ) : ℚ) / 100 := by
    rw [hm, hn]
    push_cast
    ring
  rw [hsum, numericScale2_intCast_div]

/-- C8 counterexample.  The claim quantifies over every valid input, but
the numeric(10,2) columns round on storage: with the valid sub-cent fees
`0.004` and `0.004`, the stored fees are `0.00` and `0.00` while the stored
total is `0.01` — equal neither to the input sum `0.008` nor to the sum of
the stored fee components. -/
theorem createPayment_subcent_total_not_sum :
    (createPayment 100 5 dbPaymentReady ⟨1, none, 2, 0.004, 0.004, "RCP-9"⟩).map
        (fun x => (x.1.doctor_service_fee, x.1.medicine_fee, x.1.total_amount)) =
      .ok ((0 : ℚ), (0 : ℚ), (1 / 100 : ℚ)) ∧
    (0.004 : ℚ) + 0.004 ≠ 1 / 100 ∧
    (0 : ℚ) + 0 ≠ (1 / 100 : ℚ) := by
  have h0 : (createPayment 100 5 dbPaymentReady
        ⟨1, none, 2, 0.004, 0.004, "RCP-9"⟩).map
        (fun x => (x.1.doctor_service_fee, x.1.medicine_fee, x.1.total_amount)) =
      .ok (numericScale2 0.004, numericScale2 0.004,
        numericScale2 ((0.004 : ℚ) + 0.004)) := rfl
  have e1 : numericScale2 (0.004 : ℚ) = 0 := by
    unfold numericScale2 roundHalfAway
    rw [show (0.004 : ℚ) * 100 = 2 / 5 by norm_num]
    rw [if_neg (by norm_num)]
    rw [round_eq]
    norm_num
  have e3 : numericScale2 ((0.004 : ℚ) + 0.004) = 1 / 100 := by
    unfold numericScale2 roundHalfAway
    rw [show ((0.004 : ℚ) + 0.004) * 100 = 4 / 5 by norm_num]
    rw [if_neg (by norm_num)]
    rw [round_eq]
    norm_num
  exact ⟨h0.trans (by rw [e1, e3]), by norm_num, by norm_num⟩

/-- C8 (amended): whenever `createPayment` succeeds on fees that are
representable at scale 2 (integer multiples of 0.01, as real currency
amounts are), the stored and returned row carries the two fees unchanged
and a total equal exactly to their sum, and fetching the payment back by id
returns the identical row, so repeated reads return the same total.  For
sub-cent inputs the scale-2 rounding of the numeric(10,2) columns applies
instead, as the counterexample shows. -/
theorem createPayment_total_exact_at_scale2 (now newId : Int) (db : DB)
    (input : CreatePaymentInput) (pr : PaymentRow) (db2 : DB)
    (h1 : numericScale2 input.doctor_service_fee = input.doctor_service_fee)
    (h2 : numericScale2 input.medicine_fee = input.medicine_fee)
    (hfresh : ∀ q ∈ db.payments, q.id ≠ newId)
    (hok : createPayment now newId db input = .ok (pr, db2)) :
    pr.doctor_service_fee = input.doctor_service_fee ∧
    pr.medicine_fee = input.medicine_fee ∧
    pr.total_amount = input.doctor_service_fee + input.medicine_fee ∧
    getPaymentById db2 pr.id = some pr := by
  unfold createPayment at hok
  dsimp only at hok
  split at hok
  · exact absurd hok (by simp)
  · split at hok
    · exact absurd hok (by simp)
    · next c hc =>
      split at hok
      · exact absurd hok (by simp)
      · split at hok
        · exact absurd hok (by simp)
        · split at hok
          · exact absurd hok (by simp)
          · simp only [Except.ok.injEq, Prod.mk.injEq] at hok
            obtain ⟨hp, hdb⟩ := hok
            subst hp
            subst hdb
            refine ⟨h1, h2, numericScale2_add_fixed _ _ h1 h2, ?_⟩
            unfold getPaymentById
            dsimp only
            rw [List.find?_append]
            have hnone : db.payments.find? (fun p => p.id == newId) = none :=
              List.find?_eq_none.mpr (fun q hq => by simpa using hfresh q hq)
            rw [hnone]
            simp

/-- C8 witness: on `dbPaymentReady`, the scale-2 fees 150 and 75.5 produce
a stored total of `150 + 75.5 = 225.5` exactly, and the fetched row is
identical. -/
theorem createPayment_total_exact_witness :
    payAfter.total_amount = (150 : ℚ) + 75.5 ∧
    (150 : ℚ) + 75.5 = 225.5 ∧
    getPaymentById dbAfterPayment payAfter.id = some payAfter := by
  have hq1 : numericScale2 (150 : ℚ) = 150 := by
    rw [show (150 : ℚ) = ((15000 : ℤ) : ℚ) / 100 by norm_num]
    exact numericScale2_intCast_div 15000
  have hq2 : numericScale2 (75.5 : ℚ) = 75.5 := by
    rw [show (75.5 : ℚ) = ((7550 : ℤ) : ℚ) / 100 by norm_num]
    exact numericScale2_intCast_div 7550
  obtain ⟨-, -, h3, h4⟩ :=
    createPayment_total_exact_at_scale2 100 5 dbPaymentReady
      ⟨1, none, 2, 150, 75.5, "RCP-9"⟩ payAfter dbAfterPayment hq1 hq2
      (by simp [dbPaymentReady]) (by rfl)
  exact ⟨h3, by norm_num, h4⟩

/-! ## Claim C9: deleting a visit record with and without charges -/

/-- C9: deleting an existing medical record that some payment references
fails with the conflict error and produces no new state (the record stays
in place); deleting an existing record with no referencing payment
succeeds, and fetching the record by id afterwards returns `none`. -/
theorem deleteMedicalRecord_conflict_and_success :
    (∀ (db : DB) (id : Int) (r : MedicalRecordRow),
      getMedicalRecordById db id = some r →
      db.payments.any (fun p => p.medical_record_id == some id) = true →
      deleteMedicalRecord db id =
        .error (.handler ("Cannot delete medical record with ID " ++
          toString id ++ " because it has related payments"))) ∧
    (∀ (db : DB) (id : Int) (r : MedicalRecordRow),
      getMedicalRecordById db id = some r →
      db.payments.any (fun p => p.medical_record_id == some id) = false →
      deleteMedicalRecord db id =
        .ok (true,
          { db with
            medicalRecords :=
              db.medicalRecords.filter (fun q => q.id != id) }) ∧
      getMedicalRecordById
        { db with
          medicalRecords := db.medicalRecords.filter (fun q => q.id != id) }
        id = none) := by
  constructor
  · intro db id r h0 h1
    unfold deleteMedicalRecord
    rw [h0]
    simp [h1]
  · intro db id r h0 h1
    refine ⟨?_, ?_⟩
    · unfold deleteMedicalRecord
      rw [h0]
      simp [h1]
    · unfold getMedicalRecordById
      dsimp only
      rw [List.find?_eq_none]
      intro a ha
      have hne := (List.mem_filter.mp ha).2
      simpa using hne

/-- C9 witness: on `dbRecordWithPayment` the delete of record 3 is blocked
by its referencing payment; on `dbOneRecord` the delete of record 3
succeeds and the record is gone afterwards. -/
theorem deleteMedicalRecord_witness :
    deleteMedicalRecord dbRecordWithPayment 3 =
      .error (.handler ("Cannot delete medical record with ID " ++
        toString (3 : Int) ++ " because it has related payments")) ∧
    deleteMedicalRecord dbOneRecord 3 =
      .ok (true,
        { dbOneRecord with
          medicalRecords :=
            dbOneRecord.medicalRecords.filter
              (fun q => q.id != (3 : Int)) }) ∧
    getMedicalRecordById
      { dbOneRecord with
        medicalRecords :=
          dbOneRecord.medicalRecords.filter (fun q => q.id != (3 : Int)) }
      3 = none := by
  obtain ⟨h1, h2⟩ :=
    deleteMedicalRecord_conflict_and_success.2 dbOneRecord 3 recBefore
      (by decide) (by decide)
  exact ⟨deleteMedicalRecord_conflict_and_success.1 dbRecordWithPayment 3
      recBefore (by decide) (by decide), h1, h2⟩

/-! ## Claim C10: Bun-hashed accounts can never log in -/

/-- Any digest that contains no colon fails password verification: the
recomputed digest always contains one. -/
theorem verifyPassword_false_of_no_colon (sha : String → String)
    (freshSalt password d : String) (h : ':' ∉ d.data) :
    verifyPassword sha freshSalt password d = false := by
  unfold verifyPassword
  dsimp only
  refine beq_eq_false_iff_ne.mpr (fun he => h ?_)
  rw [← he]
  unfold hashPassword
  simp [String.data_append]

/-- C10: `createUser` stores the digest produced by `Bun.password.hash`,
which contains no colon, while `verifyPassword` recomputes a
`hash:salt`-shaped digest from the colon-split of the stored one.  For an
account created through `createUser` with `is_active = true` and a fresh
username, password verification therefore returns `false` for every
password, and login always fails with `Invalid username or password`. -/
theorem createUser_then_login_always_fails (sha : String → String)
    (freshSalt : String) (sig : String → String)
    (secret encHeader : String) (encPayload : TokenPayload → String)
    (bunHash : String → String)
    (hB : ∀ s, ':' ∉ (bunHash s).data)
    (now newId nowSec : Int) (db : DB) (input : CreateUserInput)
    (hA : input.is_active = true)
    (hU : ∀ u ∈ db.users, u.username ≠ input.username)
    (u : UserRow) (db2 : DB)
    (hC : createUser bunHash now newId db input = .ok (u, db2)) :
    ∀ password,
      verifyPassword sha freshSalt password u.password_hash = false ∧
      loginUser sha freshSalt sig secret encHeader encPayload nowSec db2
        ⟨input.username, password⟩ =
        .error (.handler "Invalid username or password") := by
  intro password
  unfold createUser at hC
  split at hC
  · exact absurd hC (by simp)
  · simp only [Except.ok.injEq, Prod.mk.injEq] at hC
    obtain ⟨hu, hdb⟩ := hC
    subst hu
    subst hdb
    have hvf := verifyPassword_false_of_no_colon sha freshSalt password
      (bunHash input.password) (hB input.password)
    refine ⟨hvf, ?_⟩
    unfold loginUser
    dsimp only
    rw [List.find?_append]
    have hnone :
        db.users.find? (fun v => v.username == input.username) = none :=
      List.find?_eq_none.mpr (fun q hq => by simpa using hU q hq)
    rw [hnone]
    simp [hA, hvf]

/-- C10 witness: account `alice` created on the empty database with the
argon2-style stand-in for `Bun.password.hash` can not log in even with the
correct password. -/
theorem createUser_then_login_always_fails_witness :
    verifyPassword (fun s => s) "aa" "secret123" "$argon2id$v=19$m=65536" =
      false ∧
    loginUser (fun s => s) "aa" (fun s => s) "secret" "eh" (fun _ => "ep") 0
      dbCreatedUser ⟨"alice", "secret123"⟩ =
      .error (.handler "Invalid username or password") :=
  createUser_then_login_always_fails (fun s => s) "aa" (fun s => s) "secret"
    "eh" (fun _ => "ep") exBunHash
    (fun _ => by show ':' ∉ ("$argon2id$v=19$m=65536").data; decide)
    1 1 0 dbEmpty
    ⟨"alice", "secret123", "Alice", "admin", true⟩ rfl (by simp [dbEmpty])
    ⟨1, "alice", "$argon2id$v=19$m=65536", "Alice", "admin", true, 1, 1⟩
    dbCreatedUser (by rfl) "secret123"

end Clinic
